import Mathlib

/-!
Verification of the TikTok client/service pair (`tiktok_api.py`, `tiktok_service.py`).

The embedding models:
- JSON values and Python dicts (as ordered association lists with in-place
  key assignment semantics);
- `TikTokAPI._make_request`: the retry loop with exponential backoff, the
  header construction, the `api_secret` injection into the caller's data dict;
- `TikTokAPI.post_video`: caption/hashtag formatting and the request body;
- `TikTokAPI._upload_video` / `post_video_file`: the init-upload, raw-upload,
  post-by-url composition, traced as an event list;
- `TikTokService`: the facade converting raised exceptions into result dicts.

Network effects are modelled by oracles: a backend function gives the outcome
of each HTTP attempt, and the functions return the value/raise outcome
together with an observable trace (attempts, sleeps, issued requests).
-/

/-- JSON values, as decoded by `response.json()` and built for request bodies.
`null` doubles as Python `None` (e.g. the result of `dict.get` on a missing key). -/
inductive Json where
  | null : Json
  | bool (b : Bool) : Json
  | num (n : Int) : Json
  | str (s : String) : Json
  | arr (xs : List Json) : Json
  | obj (fields : List (String × Json)) : Json

/-- A Python dict with string keys and JSON values, as an ordered association
list (Python dicts preserve insertion order). -/
abbrev Dict := List (String × Json)

/-- Python `d[k] = v`: overwrite the value at an existing key in place
(keeping its position), or append a new key at the end. -/
def dictSet : Dict → String → Json → Dict
  | [], k, v => [(k, v)]
  | (k', v') :: rest, k, v =>
      if k' = k then (k, v) :: rest else (k', v') :: dictSet rest k v

/-- Python `k in d` lookup: `d.get(k)` without the `None` default. -/
def dictLookup (d : Dict) (k : String) : Option Json :=
  match d with
  | [] => none
  | (k', v) :: rest => if k' = k then some v else dictLookup rest k

/-- Python `d.get(k)`: the value at `k`, or `None` when the key is missing. -/
def dictGet (d : Dict) (k : String) : Json :=
  (dictLookup d k).getD Json.null

/-- Exception kinds raised inside the client.
`requestExc` stands for `requests.exceptions.RequestException` raised by the
network layer or by `raise_for_status` (connection error, timeout, non-2xx).
`jsonDecode` stands for `requests.exceptions.JSONDecodeError` raised by
`response.json()` on an undecodable body; since requests 2.27 this class is a
subclass of `RequestException` (via `InvalidJSONError`), so the client's
`except requests.exceptions.RequestException` clause catches it too.
`generic` stands for any other `Exception`. -/
inductive ExnKind where
  | requestExc : ExnKind
  | jsonDecode : ExnKind
  | generic : ExnKind
deriving DecidableEq, Repr

/-- A raised Python exception: its kind and its `str(e)` text (which may be
empty, e.g. `str(Exception())` is `""`). -/
structure Exn where
  kind : ExnKind
  msg : String
deriving DecidableEq, Repr

/-- Outcome of one HTTP attempt inside `_make_request`:
- `reqFail m`: `session.request` or `raise_for_status` raises a
  `RequestException` with text `m` (connection error, timeout, non-2xx);
- `badJson m`: a 2xx response whose body is not valid JSON, so
  `response.json()` raises `requests.exceptions.JSONDecodeError` with text `m`;
- `success j`: a 2xx response whose body decodes to `j`. -/
inductive AttemptOutcome where
  | reqFail (m : String) : AttemptOutcome
  | badJson (m : String) : AttemptOutcome
  | success (j : Json) : AttemptOutcome

/-- Result of the `while attempt < retries` loop of `_make_request`:
the decoded body was returned, an exception was raised, or the loop body
never ran and the Python function fell through, returning `None`. -/
inductive LoopResult where
  | returned (j : Json) : LoopResult
  | raised (e : Exn) : LoopResult
  | noneReturned : LoopResult

/-- Observable trace of the retry loop: its outcome, how many HTTP attempts
ran, and the `time.sleep` backoff waits in order. -/
structure LoopTrace where
  result : LoopResult
  attempts : Nat
  waits : List Nat

/-- The retry loop of `_make_request`, lines 74-98 of `tiktok_api.py`:

    attempt = 0
    while attempt < retries:
        try:    ...request...; raise_for_status; return response.json()
        except requests.exceptions.RequestException as e:
            attempt += 1
            if attempt >= retries: raise
            time.sleep(2 ** attempt)

`attempt` is the 0-based index of the current attempt and `remaining` is
`retries - attempt`, so the loop guard `attempt < retries` is `remaining > 0`
and the exhaustion test `attempt + 1 >= retries` is `remaining <= 1`.
Both `reqFail` and `badJson` are `RequestException`s, so both are caught. -/
def runAttempts (backend : Nat → AttemptOutcome) : Nat → Nat → LoopTrace
  | _, 0 => { result := .noneReturned, attempts := 0, waits := [] }
  | attempt, remaining + 1 =>
      match backend attempt with
      | .success j => { result := .returned j, attempts := 1, waits := [] }
      | .reqFail m =>
          if remaining = 0 then
            { result := .raised ⟨.requestExc, m⟩, attempts := 1, waits := [] }
          else
            let rest := runAttempts backend (attempt + 1) remaining
            { result := rest.result, attempts := rest.attempts + 1,
              waits := 2 ^ (attempt + 1) :: rest.waits }
      | .badJson m =>
          if remaining = 0 then
            { result := .raised ⟨.jsonDecode, m⟩, attempts := 1, waits := [] }
          else
            let rest := runAttempts backend (attempt + 1) remaining
            { result := rest.result, attempts := rest.attempts + 1,
              waits := 2 ^ (attempt + 1) :: rest.waits }

/-- Credentials of a `TikTokAPI` instance, read from the environment at
construction (`TIKTOK_API_KEY`, `SOCIAL_MEDIA_TOKEN`). -/
structure ApiState where
  apiKey : String
  apiSecret : String
deriving DecidableEq, Repr

/-- `TikTokAPI.BASE_URL`. -/
def BASE_URL : String := "https://open.tiktokapis.com/v2"

/-- `TikTokAPI._get_headers`. -/
def getHeaders (st : ApiState) : List (String × String) :=
  [("Content-Type", "application/json"),
   ("Authorization", "Bearer " ++ st.apiKey),
   ("X-API-Key", st.apiKey)]

/-- Whether a method string names a mutating method, after `method.upper()`. -/
def isMutating (method : String) : Bool :=
  method.toUpper = "POST" || method.toUpper = "PUT" || method.toUpper = "PATCH"

/-- One `session.request(...)` call as issued by `_make_request`:
`dataMap` is the Python `data` dict at send time, `jsonBody` the `json=`
argument (the dict for POST/PUT/PATCH, `None` otherwise), `params` the
query parameters (sent only for GET), `timeout` the per-attempt timeout. -/
structure RequestCall where
  method : String
  url : String
  headers : List (String × String)
  dataMap : Dict
  jsonBody : Option Dict
  params : Option Dict
  timeout : Option Nat

/-- Builds the `session.request` call of `_make_request`, lines 77-84. -/
def mkRequestCall (method url : String) (headers : List (String × String))
    (d : Dict) (params : Option Dict) : RequestCall :=
  { method := method, url := url, headers := headers, dataMap := d,
    jsonBody := if isMutating method then some d else none,
    params := if method.toUpper = "GET" then params else none,
    timeout := some 30 }

/-- Full observable trace of one `_make_request` call: the loop trace, the
HTTP calls issued (one per attempt, all identical since `data` is mutated
once before the loop), and the caller's `data` dict object after the call
(`none` when the caller passed no dict and a fresh `{}` was allocated). -/
structure MakeRequestTrace where
  result : LoopResult
  attempts : Nat
  waits : List Nat
  calls : List RequestCall
  callerData : Option Dict

/-- `TikTokAPI._make_request(method, endpoint, data, params, retries)`,

lines 51-98: build the URL and headers, default `data` to `{}`, assign
`data["api_secret"] = self.api_secret` (mutating the caller's dict when one
was supplied), then run the retry loop; `retries` is a Python int, so it may
be non-positive, in which case the loop never runs. The `backend` oracle
gives the outcome of the n-th HTTP attempt. -/
def makeRequest (st : ApiState) (backend : Nat → AttemptOutcome)
    (method endpoint : String) (data : Option Dict) (params : Option Dict)
    (retries : Int) : MakeRequestTrace :=
  let url := BASE_URL ++ endpoint
  let headers := getHeaders st
  let d := dictSet (data.getD []) "api_secret" (Json.str st.apiSecret)
  let t := runAttempts backend 0 retries.toNat
  { result := t.result, attempts := t.attempts, waits := t.waits,
    calls := List.replicate t.attempts (mkRequestCall method url headers d params),
    callerData := data.map (fun d0 => dictSet d0 "api_secret" (Json.str st.apiSecret)) }

/-- Python whitespace characters stripped by `str.strip()` (the ASCII ones,
which cover this client's inputs): space, tab, LF, CR, VT, FF. -/
def isPyWhitespace (c : Char) : Bool :=
  c = ' ' || c = '\t' || c = '\n' || c = '\x0d' || c = '\x0b' || c = '\x0c'

/-- Python `s.strip()`: remove leading and trailing whitespace. -/
def pyStrip (s : String) : String :=
  String.mk (((s.toList.dropWhile isPyWhitespace).reverse.dropWhile
    isPyWhitespace).reverse)

/-- Line 116 of `tiktok_api.py`: `" ".join([f"#{tag}" for tag in hashtags])`. -/
def hashtagStr (hashtags : List String) : String :=
  String.intercalate " " (hashtags.map (fun tag => "#" ++ tag))

/-- Line 117: `f"{caption} {hashtag_str}".strip()`. -/
def fullCaption (caption : String) (hashtags : List String) : String :=
  pyStrip (caption ++ " " ++ hashtagStr hashtags)

/-- The request body built by `TikTokAPI.post_video`, lines 119-128:
video URL, combined caption, and the nested `post_info` block whose title is
the first 80 characters of the combined caption. -/
def postVideoBody (videoUrl caption : String) (hashtags : List String) : Dict :=
  [("video_url", Json.str videoUrl),
   ("caption", Json.str (fullCaption caption hashtags)),
   ("post_info", Json.obj
     [("title", Json.str ((fullCaption caption hashtags).take 80)),
      ("disable_comment", Json.bool false),
      ("disable_duet", Json.bool false),
      ("disable_stitch", Json.bool false)])]

/-- `TikTokAPI.post_video(video_url, caption, hashtags)`: builds the body and
issues `_make_request("POST", "/post/publish/video/url", data=body)` with the
default retry budget of 3. -/
def postVideo (st : ApiState) (backend : Nat → AttemptOutcome)
    (videoUrl caption : String) (hashtags : List String) : MakeRequestTrace :=
  makeRequest st backend "POST" "/post/publish/video/url"
    (some (postVideoBody videoUrl caption hashtags)) none 3

/-- Python `os.path.basename` for slash-separated paths. -/
def basename (p : String) : String :=
  (p.splitOn "/").getLastD ""

/-- The init-upload body built by `TikTokAPI._upload_video`, lines 165-169. -/
def uploadInitBody (videoPath : String) : Dict :=
  [("source", Json.str "FILE_UPLOAD"),
   ("content_type", Json.str "video/mp4"),
   ("filename", Json.str (basename videoPath))]

/-- The bare `requests.post(upload_url, files=files)` call of `_upload_video`,
lines 175-180: the multipart `files` field, and crucially no `headers=` and no
`timeout=` keyword — so no auth headers and no per-attempt time bound. -/
structure RawPostCall where
  url : Json
  files : List (String × String)
  headers : Option (List (String × String))
  timeout : Option Nat

/-- Builds the raw binary upload call of `_upload_video`, lines 175-180. -/
def rawUploadCall (uploadUrl : Json) (videoPath : String) : RawPostCall :=
  { url := uploadUrl,
    files := [("file", basename videoPath)],
    headers := none,
    timeout := none }

/-- The network-visible steps of `post_video_file`:
`initUpload` is the `_make_request POST /post/publish/video/init` call,
`rawUpload` the direct `requests.post(upload_url, files=...)` call, and
`postByUrl` the `post_video(video_url, caption, hashtags)` call made with the
`video_url` taken from the init-upload response. -/
inductive UploadEvent where
  | initUpload (body : Dict) : UploadEvent
  | rawUpload (call : RawPostCall) : UploadEvent
  | postByUrl (videoUrl : Json) (caption : String) (hashtags : List String) : UploadEvent

/-- Outcomes of the three network steps of `post_video_file`, as oracles:
the decoded init-upload response (or the exception it raises), the outcome of
the raw binary upload (covering `open`, `requests.post` and
`raise_for_status`), and the outcome of the final post-by-url request. -/
structure UploadWorld where
  initOutcome : Except Exn Dict
  uploadOutcome : Except Exn Unit
  postOutcome : Except Exn Json

/-- `TikTokAPI._upload_video(video_path)`, lines 154-182: issue the
init-upload request; on success, POST the file to
`upload_info.get("upload_url")` directly via `requests.post`; on success of
that, return `upload_info.get("video_url")`. Any raise aborts and propagates.
Returns the outcome together with the list of network steps performed. -/
def uploadVideo (w : UploadWorld) (videoPath : String) :
    Except Exn Json × List UploadEvent :=
  match w.initOutcome with
  | .error e => (.error e, [.initUpload (uploadInitBody videoPath)])
  | .ok info =>
      let call := rawUploadCall (dictGet info "upload_url") videoPath
      match w.uploadOutcome with
      | .error e =>
          (.error e, [.initUpload (uploadInitBody videoPath), .rawUpload call])
      | .ok _ =>
          (.ok (dictGet info "video_url"),
           [.initUpload (uploadInitBody videoPath), .rawUpload call])

/-- `TikTokAPI.post_video_file(video_path, caption, hashtags)`, lines 133-152:
upload the file to obtain a URL, then `post_video(upload_url, caption,
hashtags)`. A raise in `_upload_video` propagates and the post step never
happens. -/
def postVideoFile (w : UploadWorld) (videoPath caption : String)
    (hashtags : List String) : Except Exn Json × List UploadEvent :=
  match uploadVideo w videoPath with
  | (.error e, evs) => (.error e, evs)
  | (.ok url, evs) =>
      match w.postOutcome with
      | .error e => (.error e, evs ++ [.postByUrl url caption hashtags])
      | .ok j => (.ok j, evs ++ [.postByUrl url caption hashtags])

/-- The result dict returned by every `TikTokService` method: `success` and
`message` are always present; `data` only on success, `error` only on
failure (modelled as `Option`s). -/
structure ServiceResult where
  success : Bool
  message : String
  data : Option Json
  error : Option String

/-- `TikTokService.post_video`, lines 28-55 of `tiktok_service.py`: the
underlying `TikTokAPI.post_video` call either returns a response or raises;
the facade wraps either into a `ServiceResult` and never re-raises. -/
def servicePostVideo (outcome : Except Exn Json) : ServiceResult :=
  match outcome with
  | .ok r =>
      { success := true, message := "Video posted successfully",
        data := some r, error := none }
  | .error e =>
      { success := false, message := "Failed to post video: " ++ e.msg,
        data := none, error := some e.msg }

/-- `TikTokService.post_video_file`, lines 57-84 of `tiktok_service.py`. -/
def servicePostVideoFile (outcome : Except Exn Json) : ServiceResult :=
  match outcome with
  | .ok r =>
      { success := true, message := "Video posted successfully",
        data := some r, error := none }
  | .error e =>
      { success := false, message := "Failed to post video: " ++ e.msg,
        data := none, error := some e.msg }

/-- `TikTokService.get_account_info`, lines 86-108 of `tiktok_service.py`. -/
def serviceGetAccountInfo (outcome : Except Exn Json) : ServiceResult :=
  match outcome with
  | .ok r =>
      { success := true,
        message := "Account information retrieved successfully",
        data := some r, error := none }
  | .error e =>
      { success := false,
        message := "Failed to get account information: " ++ e.msg,
        data := none, error := some e.msg }

theorem dictLookup_dictSet (d : Dict) (k : String) (v : Json) :
    dictLookup (dictSet d k v) k = some v := by
  induction d with
  | nil => simp [dictSet, dictLookup]
  | cons p rest ih =>
      by_cases h : p.1 = k <;>
        simp [dictSet, dictLookup, h, ih]

/-- C2: with a retry budget of 3 and a backend failing every attempt with a
network-level failure, `_make_request` performs exactly 3 attempts, sleeps 2
then 4 time units before the second and third attempts, and raises the last
attempt's failure. -/
theorem makeRequest_retry_exhaustion (st : ApiState) (f : Nat → String)
    (method endpoint : String) (data params : Option Dict) :
    (makeRequest st (fun n => .reqFail (f n)) method endpoint data params 3).attempts = 3 ∧
    (makeRequest st (fun n => .reqFail (f n)) method endpoint data params 3).waits = [2, 4] ∧
    (makeRequest st (fun n => .reqFail (f n)) method endpoint data params 3).result =
      .raised ⟨.requestExc, f 2⟩ :=
  ⟨rfl, rfl, rfl⟩

/-- A backend failing on the first two attempts and succeeding on the third. -/
def failTwiceBackend (m0 m1 : String) (j : Json) : Nat → AttemptOutcome :=
  fun n => if n = 0 then .reqFail m0 else if n = 1 then .reqFail m1 else .success j

/-- C6: with a retry budget of 3 and a backend that fails twice then succeeds,
`_make_request` returns the successful decoded response after exactly 3
attempts (with the two backoff waits in between), raising nothing. -/
theorem makeRequest_retry_recovery (st : ApiState) (m0 m1 : String) (j : Json)
    (method endpoint : String) (data params : Option Dict) :
    (makeRequest st (failTwiceBackend m0 m1 j) method endpoint data params 3).attempts = 3 ∧
    (makeRequest st (failTwiceBackend m0 m1 j) method endpoint data params 3).waits = [2, 4] ∧
    (makeRequest st (failTwiceBackend m0 m1 j) method endpoint data params 3).result =
      .returned j :=
  ⟨rfl, rfl, rfl⟩

/-- C9: with a non-positive retry budget the `while` loop never runs, so
`_make_request` issues no HTTP attempt and falls through, returning Python
`None` (neither a decoded response nor a raise). -/
theorem makeRequest_nonpositive_budget (st : ApiState)
    (backend : Nat → AttemptOutcome) (method endpoint : String)
    (data params : Option Dict) (retries : Int) (h : retries ≤ 0) :
    (makeRequest st backend method endpoint data params retries).attempts = 0 ∧
    (makeRequest st backend method endpoint data params retries).calls = [] ∧
    (makeRequest st backend method endpoint data params retries).result =
      .noneReturned := by
  have h0 : retries.toNat = 0 := Int.toNat_of_nonpos h
  refine ⟨?_, ?_, ?_⟩ <;> simp [makeRequest, h0, runAttempts]

theorem makeRequest_nonpositive_budget_witness :
    (makeRequest ⟨"k", "s"⟩ (fun _ => .reqFail "boom") "GET" "/user/info"
      none none 0).attempts = 0 ∧
    (makeRequest ⟨"k", "s"⟩ (fun _ => .reqFail "boom") "GET" "/user/info"
      none none 0).calls = [] ∧
    (makeRequest ⟨"k", "s"⟩ (fun _ => .reqFail "boom") "GET" "/user/info"
      none none 0).result = .noneReturned :=
  makeRequest_nonpositive_budget ⟨"k", "s"⟩ (fun _ => .reqFail "boom")
    "GET" "/user/info" none none 0 (by decide)

/-- A backend whose first attempt yields a 2xx response with an undecodable
body, and whose second attempt succeeds. -/
def badJsonThenOk : Nat → AttemptOutcome :=
  fun n => if n = 0 then
    .badJson "Expecting value: line 1 column 1 (char 0)"
  else .success (Json.str "ok")

/-- C5 counterexample: a decode failure on a 2xx response is NOT propagated
immediately — `response.json()` raises `requests.exceptions.JSONDecodeError`,
a `RequestException` subclass (requests >= 2.27), which the retry handler
catches: here a second attempt runs after a backoff wait of 2 and its result
is returned. -/
theorem makeRequest_decode_failure_retried :
    (makeRequest ⟨"k", "s"⟩ badJsonThenOk "GET" "/user/info" none none 3).attempts = 2 ∧
    (makeRequest ⟨"k", "s"⟩ badJsonThenOk "GET" "/user/info" none none 3).waits = [2] ∧
    (makeRequest ⟨"k", "s"⟩ badJsonThenOk "GET" "/user/info" none none 3).result =
      .returned (Json.str "ok") :=
  ⟨rfl, rfl, rfl⟩

/-- C5 (amended): a 2xx response whose body is not valid JSON raises a
`JSONDecodeError`, which the `except RequestException` clause catches like a
network failure: it is retried with the same backoff, and reaches the caller
only on budget exhaustion. -/
theorem makeRequest_decode_failure_backoff (st : ApiState) (f : Nat → String)
    (method endpoint : String) (data params : Option Dict) :
    (makeRequest st (fun n => .badJson (f n)) method endpoint data params 3).attempts = 3 ∧
    (makeRequest st (fun n => .badJson (f n)) method endpoint data params 3).waits = [2, 4] ∧
    (makeRequest st (fun n => .badJson (f n)) method endpoint data params 3).result =
      .raised ⟨.jsonDecode, f 2⟩ :=
  ⟨rfl, rfl, rfl⟩

/-- C8: with an empty hashtag list the built caption is exactly the given
caption — the trailing space of `f"{caption} {hashtag_str}"` is stripped and
no `#` token appears. -/
theorem postVideo_empty_hashtags :
    dictLookup (postVideoBody "u" "Hello" []) "caption" = some (Json.str "Hello") ∧
    fullCaption "Hello" [] = "Hello" :=
  ⟨rfl, rfl⟩

/-- C10: the raw binary upload of `_upload_video` is a bare `requests.post`
with no `timeout=` and no `headers=` keyword, so it is unbounded by the
30-unit per-attempt timeout of the Transport calls and carries none of their
auth headers (`Content-Type`, `Authorization: Bearer`, `X-API-Key`). -/
theorem rawUpload_no_timeout_no_auth (u : Json) (p : String) (st : ApiState)
    (method url : String) (d : Dict) (params : Option Dict) :
    (rawUploadCall u p).timeout = none ∧
    (rawUploadCall u p).headers = none ∧
    (mkRequestCall method url (getHeaders st) d params).timeout = some 30 ∧
    (mkRequestCall method url (getHeaders st) d params).headers =
      [("Content-Type", "application/json"),
       ("Authorization", "Bearer " ++ st.apiKey),
       ("X-API-Key", st.apiKey)] :=
  ⟨rfl, rfl, rfl, rfl⟩

/-- C7: `_make_request` injects `api_secret` into the data dict (supplied or
defaulted to `{}`) before the loop; every issued attempt carries that same
dict, in which the secret is present; and when the caller supplied the dict,
the caller's own dict holds the secret after the call (in-place mutation). -/
theorem makeRequest_injects_secret (st : ApiState)
    (backend : Nat → AttemptOutcome) (method endpoint : String)
    (data params : Option Dict) (retries : Int) :
    (∀ c ∈ (makeRequest st backend method endpoint data params retries).calls,
        dictLookup c.dataMap "api_secret" = some (Json.str st.apiSecret) ∧
        (isMutating method = true → c.jsonBody = some c.dataMap)) ∧
    (makeRequest st backend method endpoint data params retries).callerData =
      data.map (fun d0 => dictSet d0 "api_secret" (Json.str st.apiSecret)) := by
  constructor
  · intro c hc
    have hc' := List.eq_of_mem_replicate hc
    subst hc'
    constructor
    · exact dictLookup_dictSet _ _ _
    · intro hm
      simp [mkRequestCall, hm]
  · rfl

theorem makeRequest_injects_secret_witness :
    dictLookup (mkRequestCall "POST" (BASE_URL ++ "/x") (getHeaders ⟨"key", "sec"⟩)
        (dictSet [("a", Json.num 1)] "api_secret" (Json.str "sec")) none).dataMap
      "api_secret" = some (Json.str "sec") ∧
    (makeRequest ⟨"key", "sec"⟩ (fun _ => .success Json.null) "POST" "/x"
        (some [("a", Json.num 1)]) none 3).callerData =
      some [("a", Json.num 1), ("api_secret", Json.str "sec")] := by
  have h := makeRequest_injects_secret ⟨"key", "sec"⟩
    (fun _ => .success Json.null) "POST" "/x" (some [("a", Json.num 1)]) none 3
  refine ⟨(h.1 _ (List.mem_singleton.mpr rfl)).1, ?_⟩
  exact h.2

/-- C4 counterexample: the built caption is the *stripped* combination, so for
a caption with leading whitespace it is not "the caption followed by the
space-joined `#tag` tokens": with caption `" Hello"` the code produces
`"Hello #fyp #viral"`, while the claimed shape is `" Hello #fyp #viral"`. -/
theorem postVideo_caption_strip_counterexample :
    dictLookup (postVideoBody "u" " Hello" ["fyp", "viral"]) "caption"
      = some (Json.str "Hello #fyp #viral") ∧
    " Hello" ++ " " ++ hashtagStr ["fyp", "viral"] = " Hello #fyp #viral" ∧
    ("Hello #fyp #viral" : String) ≠ " Hello #fyp #viral" :=
  ⟨rfl, rfl, by decide⟩

/-- C4 (amended): the built caption is the whitespace-stripped form of
`caption ++ " " ++ <space-joined #tags>`; whenever that combined string has no
leading or trailing whitespace (as in the cited example), the caption equals
it exactly and `post_info.title` is its first 80 characters. -/
theorem postVideo_caption_formatting (u c : String) (hs : List String)
    (h : pyStrip (c ++ " " ++ hashtagStr hs) = c ++ " " ++ hashtagStr hs) :
    dictLookup (postVideoBody u c hs) "caption" =
      some (Json.str (c ++ " " ++ hashtagStr hs)) ∧
    dictLookup (postVideoBody u c hs) "post_info" = some (Json.obj
      [("title", Json.str ((c ++ " " ++ hashtagStr hs).take 80)),
       ("disable_comment", Json.bool false),
       ("disable_duet", Json.bool false),
       ("disable_stitch", Json.bool false)]) := by
  constructor
  · show some (Json.str (fullCaption c hs)) = _
    rw [fullCaption, h]
  · show some (Json.obj [("title", Json.str ((fullCaption c hs).take 80)),
      ("disable_comment", Json.bool false),
      ("disable_duet", Json.bool false),
      ("disable_stitch", Json.bool false)]) = _
    rw [fullCaption, h]

theorem postVideo_caption_formatting_witness :
    dictLookup (postVideoBody "u" "Hello" ["fyp", "viral"]) "caption"
      = some (Json.str "Hello #fyp #viral") ∧
    dictLookup (postVideoBody "u" "Hello" ["fyp", "viral"]) "post_info"
      = some (Json.obj
        [("title", Json.str (("Hello #fyp #viral" : String).take 80)),
         ("disable_comment", Json.bool false),
         ("disable_duet", Json.bool false),
         ("disable_stitch", Json.bool false)]) :=
  postVideo_caption_formatting "u" "Hello" ["fyp", "viral"] (by decide)

/-- C3: `post_video_file` performs init-upload, then the raw binary upload to
the `upload_url` of the init response, then post-by-url with the `video_url`
of the init response and the original caption/hashtags — in that order; if
init-upload or the raw upload raises, post-by-url is never invoked and the
whole operation raises that exception. -/
theorem postVideoFile_ordering (w : UploadWorld) (path c : String)
    (hs : List String) :
    (∀ info, w.initOutcome = .ok info → w.uploadOutcome = .ok () →
      (postVideoFile w path c hs).2 =
        [.initUpload (uploadInitBody path),
         .rawUpload (rawUploadCall (dictGet info "upload_url") path),
         .postByUrl (dictGet info "video_url") c hs]) ∧
    (∀ e, w.initOutcome = .error e →
      (postVideoFile w path c hs).1 = .error e ∧
      (postVideoFile w path c hs).2 = [.initUpload (uploadInitBody path)]) ∧
    (∀ info e, w.initOutcome = .ok info → w.uploadOutcome = .error e →
      (postVideoFile w path c hs).1 = .error e ∧
      (postVideoFile w path c hs).2 =
        [.initUpload (uploadInitBody path),
         .rawUpload (rawUploadCall (dictGet info "upload_url") path)]) := by
  refine ⟨?_, ?_, ?_⟩
  · intro info hinit hup
    cases hpost : w.postOutcome <;>
      simp [postVideoFile, uploadVideo, hinit, hup, hpost]
  · intro e hinit
    constructor <;> simp [postVideoFile, uploadVideo, hinit]
  · intro info e hinit hup
    constructor <;> simp [postVideoFile, uploadVideo, hinit, hup]

/-- A test world in which all three steps of `post_video_file` succeed. -/
def allOkWorld : UploadWorld :=
  { initOutcome := .ok [("upload_url", Json.str "https://up.example"),
                        ("video_url", Json.str "https://vid.example")],
    uploadOutcome := .ok (),
    postOutcome := .ok (Json.str "done") }

theorem postVideoFile_ordering_witness :
    (postVideoFile allOkWorld "dir/v.mp4" "Hello" ["fyp"]).2 =
      [.initUpload (uploadInitBody "dir/v.mp4"),
       .rawUpload (rawUploadCall (Json.str "https://up.example") "dir/v.mp4"),
       .postByUrl (Json.str "https://vid.example") "Hello" ["fyp"]] :=
  (postVideoFile_ordering allOkWorld "dir/v.mp4" "Hello" ["fyp"]).1 _ rfl rfl

/-- C1 counterexample: the facade's `error` field is `str(e)`, which is empty
for an exception with empty text (e.g. `Exception()`), so the "non-empty
error string" part of the claim fails. -/
theorem serviceFacade_empty_error_counterexample :
    (servicePostVideo (.error ⟨.generic, ""⟩)).success = false ∧
    (servicePostVideo (.error ⟨.generic, ""⟩)).error = some "" :=
  ⟨rfl, rfl⟩

/-- C1 (amended): every facade method is total — each underlying outcome
yields a `ServiceResult`, never a re-raise. On a raised exception it returns
`success = false` with `error` equal to the exception's text (hence non-empty
exactly when that text is non-empty); on success it returns `success = true`
with the raw response in `data`. -/
theorem serviceFacade_containment (o : Except Exn Json) :
    (∀ e, o = .error e →
      (servicePostVideo o).success = false ∧
      (servicePostVideo o).error = some e.msg ∧
      (servicePostVideoFile o).success = false ∧
      (servicePostVideoFile o).error = some e.msg ∧
      (serviceGetAccountInfo o).success = false ∧
      (serviceGetAccountInfo o).error = some e.msg ∧
      (e.msg ≠ "" → (servicePostVideo o).error ≠ some "")) ∧
    (∀ j, o = .ok j →
      (servicePostVideo o).success = true ∧
      (servicePostVideo o).data = some j ∧
      (servicePostVideoFile o).success = true ∧
      (servicePostVideoFile o).data = some j ∧
      (serviceGetAccountInfo o).success = true ∧
      (serviceGetAccountInfo o).data = some j) := by
  constructor
  · intro e he
    subst he
    refine ⟨rfl, rfl, rfl, rfl, rfl, rfl, ?_⟩
    intro hne hcontra
    exact hne (by simpa [servicePostVideo] using hcontra)
  · intro j hj
    subst hj
    exact ⟨rfl, rfl, rfl, rfl, rfl, rfl⟩

theorem serviceFacade_containment_witness :
    (servicePostVideo (.error ⟨.requestExc, "boom"⟩)).success = false ∧
    (servicePostVideo (.error ⟨.requestExc, "boom"⟩)).error = some "boom" ∧
    (serviceGetAccountInfo (.ok (Json.str "info"))).success = true ∧
    (serviceGetAccountInfo (.ok (Json.str "info"))).data = some (Json.str "info") := by
  have h1 := (serviceFacade_containment (.error ⟨.requestExc, "boom"⟩)).1
    ⟨.requestExc, "boom"⟩ rfl
  have h2 := (serviceFacade_containment (.ok (Json.str "info"))).2
    (Json.str "info") rfl
  exact ⟨h1.1, h1.2.1, h2.2.2.2.2.1, h2.2.2.2.2.2⟩
